import Mathlib

/-!
Shallow embedding of `src/snd-xonar-ae.c`, a Linux kernel module that
switches the analog output of an ASUS XONAR AE USB sound card between
speakers and headphones via vendor-specific USB control transfers, and
proofs of the specification claims about it.

Modelling choices:
* Machine integers of the C code are `Int` (return codes) and `Nat`
  (byte values, protocol constants); no value in the program approaches
  an overflow boundary.
* The external USB transport (`usb_control_msg`) and the allocator
  (`kmalloc`) are an explicit `Transport` parameter: `sndResult` gives
  the return code of a host-to-device transfer, `rcvResult` gives the
  return code and the bytes placed in the receive buffer of a
  device-to-host transfer, and `allocOk` tells whether `kmalloc`
  succeeds.
* The module's global mutable state (`xonar_udev`, `current_output`) is
  an explicit `XonarState` threaded through the operations.
* `mutex_lock`/`mutex_unlock` delimit a critical section; in this
  sequential embedding they are no-ops, and the locked region appears as
  the helper `output_set_locked` / the body of `output_get`.
-/

namespace XonarAE

/-- Errno magnitudes used by the driver (it returns their negations). -/
def ENOMEM : Int := 12

/-- Errno magnitude of "no such device". -/
def ENODEV : Int := 19

/-- Errno magnitude of "invalid argument". -/
def EINVAL : Int := 22

def XONAR_VENDOR_ID : Nat := 0x0B05
def XONAR_PRODUCT_ID : Nat := 0x180F

/-- USB Audio Class SET/GET CUR request code. -/
def UAC2_CS_CUR : Nat := 0x01

def XONAR_OUTPUT_SEL_CS : Nat := 0x08
def XONAR_CONNECTOR_CS : Nat := 0x02
def XONAR_OT7_ID : Nat := 7

def USB_DIR_OUT : Nat := 0x00
def USB_DIR_IN : Nat := 0x80
def USB_TYPE_CLASS : Nat := 0x20
def USB_RECIP_INTERFACE : Nat := 0x01

/-- The identifying fields of a `struct usb_device` descriptor. -/
structure UsbDeviceDesc where
  idVendor : Nat
  idProduct : Nat
deriving DecidableEq

/-- `match_xonar` (src lines 45-55): the `usb_for_each_dev` callback that
matches on the fixed vendor/product pair. -/
def match_xonar (udev : UsbDeviceDesc) : Bool :=
  udev.idVendor == XONAR_VENDOR_ID && udev.idProduct == XONAR_PRODUCT_ID

/-- `find_xonar` (src lines 57-62): linear scan over the attached devices,
stopping at the first match. -/
def find_xonar (devs : List UsbDeviceDesc) : Option UsbDeviceDesc :=
  devs.find? match_xonar

/-- The arguments of one `usb_control_msg` call. -/
structure ControlMsg where
  bRequestType : Nat
  bRequest : Nat
  wValue : Nat
  wIndex : Nat
  /-- payload bytes for a host-to-device transfer; `[]` for device-to-host -/
  data : List Nat
  len : Nat
  timeout : Nat
deriving DecidableEq

/-- The external environment: USB transport results and allocator fate. -/
structure Transport where
  /-- return code of `usb_control_msg` on the send control pipe -/
  sndResult : ControlMsg → Int
  /-- return code of `usb_control_msg` on the receive control pipe,
  together with the six bytes it leaves in the buffer -/
  rcvResult : ControlMsg → Int × List Nat
  /-- whether `kmalloc` succeeds -/
  allocOk : Bool

/-- The control message built by `xonar_switch` (src lines 73-81). -/
def xonar_switch_msg (speakers : Int) : ControlMsg where
  bRequestType := USB_TYPE_CLASS ||| USB_RECIP_INTERFACE ||| USB_DIR_OUT
  bRequest := UAC2_CS_CUR
  wValue := XONAR_OUTPUT_SEL_CS <<< 8
  wIndex := (XONAR_OT7_ID <<< 8) ||| 0
  data := [if speakers != 0 then 0x01 else 0x02, 0x03]
  len := 2
  timeout := 1000

/-- `xonar_switch` (src lines 64-85): allocate the 2-byte payload, issue
the host-to-device transfer, return its result. -/
def xonar_switch (t : Transport) (speakers : Int) : Int :=
  if t.allocOk = false then -ENOMEM
  else t.sndResult (xonar_switch_msg speakers)

/-- The control message built by `xonar_get_status` (src lines 96-101). -/
def xonar_status_msg : ControlMsg where
  bRequestType := USB_TYPE_CLASS ||| USB_RECIP_INTERFACE ||| USB_DIR_IN
  bRequest := UAC2_CS_CUR
  wValue := XONAR_CONNECTOR_CS <<< 8
  wIndex := (XONAR_OT7_ID <<< 8) ||| 0
  data := []
  len := 6
  timeout := 1000

/-- `xonar_get_status` (src lines 87-112): issue the 6-byte device-to-host
transfer; on a negative return code pass it through, otherwise decode
`buf[0]` (the channel count): 8 means speakers (1), anything else
headphones (0). -/
def xonar_get_status (t : Transport) : Int :=
  if t.allocOk = false then -ENOMEM
  else
    let r := t.rcvResult xonar_status_msg
    if r.1 < 0 then r.1
    else if r.2.headD 0 = 8 then 1 else 0

/-- The kernel helper `sysfs_streq` on character lists: strings are equal
modulo one trailing newline on either side. -/
def sysfs_streq_chars : List Char → List Char → Bool
  | [], [] => true
  | [], ['\n'] => true
  | ['\n'], [] => true
  | c1 :: t1, c2 :: t2 => c1 == c2 && sysfs_streq_chars t1 t2
  | _, _ => false

/-- The kernel helper `sysfs_streq` used by `output_set` (src lines
137-139): exact, case-sensitive comparison tolerating one trailing
newline. -/
def sysfs_streq (s1 s2 : String) : Bool :=
  sysfs_streq_chars s1.data s2.data

/-- The module's global mutable state: `xonar_udev` (src line 41) and
`current_output` (src line 126). -/
structure XonarState where
  xonar_udev : Option UsbDeviceDesc
  current_output : Int
deriving DecidableEq

/-- The state at module-parameter initialization: no device handle,
`current_output = -1` (src lines 41, 126). -/
def initialState : XonarState where
  xonar_udev := none
  current_output := -1

/-- The token classification of `output_set` (src lines 137-142): which
value of the local `speakers` the input selects, `none` meaning the
`-EINVAL` branch. -/
def tokenToSpeakers (val : String) : Option Int :=
  if sysfs_streq val "speakers" || sysfs_streq val "1" then some 1
  else if sysfs_streq val "headphones" || sysfs_streq val "0" then some 0
  else none

/-- The mutex-protected region of `output_set` (src lines 144-153): issue
the switch, update the cache only when the transfer succeeded, return
the negative error or 0. -/
def output_set_locked (t : Transport) (speakers : Int) (s : XonarState) :
    Int × XonarState :=
  let ret := xonar_switch t speakers
  let s' := if 0 ≤ ret then { s with current_output := speakers } else s
  (if ret < 0 then ret else 0, s')

/-- `output_set` (src lines 130-154): reject when no device handle,
classify the token, run the locked region. -/
def output_set (t : Transport) (val : String) (s : XonarState) :
    Int × XonarState :=
  if s.xonar_udev = none then (-ENODEV, s)
  else
    match tokenToSpeakers val with
    | none => (-EINVAL, s)
    | some sp => output_set_locked t sp s

/-- The rendering of `current_output` by `output_get` (src lines 169-174). -/
def renderOutput (current_output : Int) : String :=
  if current_output = 1 then "speakers\n"
  else if current_output = 0 then "headphones\n"
  else "unknown\n"

/-- `output_get` (src lines 156-175): "disconnected" when no device
handle; otherwise query the status, update the cache only on success,
and render the (possibly stale) cached value. -/
def output_get (t : Transport) (s : XonarState) : String × XonarState :=
  if s.xonar_udev = none then ("disconnected\n", s)
  else
    let status := xonar_get_status t
    let s' := if 0 ≤ status then { s with current_output := status } else s
    (renderOutput s'.current_output, s')

/-- `xonar_ae_init` (src lines 177-195): locate the device; if absent
return `-ENODEV` (the module load fails, globals keep their static
initial values); otherwise query the status with `-1` as the fallback. -/
def xonar_ae_init (t : Transport) (devs : List UsbDeviceDesc) :
    Int × XonarState :=
  match find_xonar devs with
  | none => (-ENODEV, initialState)
  | some d =>
      let status := xonar_get_status t
      (0, { xonar_udev := some d
            current_output := if 0 ≤ status then status else -1 })

/-! Concrete fixtures used by counterexamples and witnesses. -/

/-- A descriptor with the XONAR AE vendor/product pair. -/
def xonarDevice : UsbDeviceDesc where
  idVendor := 0x0B05
  idProduct := 0x180F

/-- A state holding the device with the cache still unknown. -/
def devState : XonarState where
  xonar_udev := some xonarDevice
  current_output := -1

/-- A state holding the device with the cache remembering speakers. -/
def spkState : XonarState where
  xonar_udev := some xonarDevice
  current_output := 1

/-- A transport whose transfers always succeed and whose status reply
reports channel count 8 (speakers). -/
def okTransport : Transport where
  sndResult := fun _ => 2
  rcvResult := fun _ => (6, [8, 0, 0, 0, 0, 0])
  allocOk := true

/-- A transport whose transfers always succeed and whose status reply
reports channel count 2 (headphones). -/
def hpTransport : Transport where
  sndResult := fun _ => 2
  rcvResult := fun _ => (6, [2, 0, 0, 0, 0, 0])
  allocOk := true

/-- A transport whose every transfer fails with `-110` (timeout). -/
def failTransport : Transport where
  sndResult := fun _ => -110
  rcvResult := fun _ => (-110, [0, 0, 0, 0, 0, 0])
  allocOk := true

/-- The three-valuedness invariant on the cached output state:
`current_output` is the unknown sentinel, headphones, or speakers. -/
def curOK (s : XonarState) : Prop :=
  s.current_output = -1 ∨ s.current_output = 0 ∨ s.current_output = 1

/-! Helper lemmas shared by several claim proofs. -/

/-- The token classifier only ever selects `speakers = 1` or `speakers = 0`. -/
theorem tokenToSpeakers_cases (v : String) (sp : Int)
    (h : tokenToSpeakers v = some sp) : sp = 1 ∨ sp = 0 := by
  unfold tokenToSpeakers at h
  split at h
  · left; exact (Option.some.inj h).symm
  · split at h
    · right; exact (Option.some.inj h).symm
    · exact absurd h (by simp)

/-- `xonar_get_status` returns a negative error, 0 or 1. -/
theorem xonar_get_status_cases (t : Transport) :
    xonar_get_status t < 0 ∨ xonar_get_status t = 0 ∨ xonar_get_status t = 1 := by
  simp only [xonar_get_status]
  split
  · left; decide
  · split
    · left; assumption
    · split
      · right; right; rfl
      · right; left; rfl

/-- On a non-negative transfer result, `xonar_get_status` is the decoding
of byte 0 of the reply buffer. -/
theorem xonar_get_status_eq (t : Transport) (halloc : t.allocOk = true)
    (hge : ¬ (t.rcvResult xonar_status_msg).1 < 0) :
    xonar_get_status t =
      if (t.rcvResult xonar_status_msg).2.headD 0 = 8 then 1 else 0 := by
  simp [xonar_get_status, halloc, hge]

/-- `renderOutput` only ever produces one of its three literal strings. -/
theorem renderOutput_mem (co : Int) :
    renderOutput co = "speakers\n" ∨ renderOutput co = "headphones\n" ∨
    renderOutput co = "unknown\n" := by
  unfold renderOutput
  split
  · left; rfl
  · split
    · right; left; rfl
    · right; right; rfl

/-- `renderOutput` says "unknown" only for a cache value outside 0 and 1. -/
theorem renderOutput_unknown (co : Int) (h : renderOutput co = "unknown\n") :
    co ≠ 1 ∧ co ≠ 0 := by
  unfold renderOutput at h
  constructor
  · intro h1
    rw [if_pos h1] at h
    exact absurd h (by decide)
  · intro h0
    rw [if_neg (by omega : ¬ co = 1), if_pos h0] at h
    exact absurd h (by decide)

/-- C4: for every prior cached value and every valid token, if the control
transfer issued by `output_set` through `xonar_switch` fails, the cached
`current_output` after the call equals its value before the call and the
negative error is returned unchanged to the caller. -/
theorem output_set_transfer_failure (t : Transport) (v : String) (sp : Int)
    (s : XonarState) (hdev : s.xonar_udev ≠ none)
    (htok : tokenToSpeakers v = some sp)
    (hfail : xonar_switch t sp < 0) :
    output_set t v s = (xonar_switch t sp, s) := by
  unfold output_set output_set_locked
  rw [if_neg hdev, htok]
  have h1 : ¬ (0 ≤ xonar_switch t sp) := by omega
  simp [h1, hfail]

/-- Witness for C4 at the always-failing transport with token "speakers". -/
theorem output_set_transfer_failure_witness :
    devState.xonar_udev ≠ none ∧
    tokenToSpeakers "speakers" = some 1 ∧
    xonar_switch failTransport 1 < 0 ∧
    output_set failTransport "speakers" devState =
      (xonar_switch failTransport 1, devState) :=
  ⟨by decide, by decide, by decide,
    output_set_transfer_failure failTransport "speakers" 1 devState
      (by decide) (by decide) (by decide)⟩

/-- C5: for every prior cached value, if the transfer issued by
`output_get` through `xonar_get_status` fails while a device handle
exists, `output_get` does not fail the caller: it leaves the cache
untouched and renders the previous cached value, which reads "unknown"
only if the cache already held neither 0 nor 1 before the call. -/
theorem output_get_transfer_failure (t : Transport) (s : XonarState)
    (hdev : s.xonar_udev ≠ none) (hfail : xonar_get_status t < 0) :
    output_get t s = (renderOutput s.current_output, s) ∧
    ((output_get t s).1 = "unknown\n" →
      s.current_output ≠ 1 ∧ s.current_output ≠ 0) := by
  have h1 : ¬ (0 ≤ xonar_get_status t) := by omega
  have heq : output_get t s = (renderOutput s.current_output, s) := by
    unfold output_get
    rw [if_neg hdev]
    simp [h1]
  refine ⟨heq, ?_⟩
  intro hu
  rw [heq] at hu
  exact renderOutput_unknown s.current_output hu

/-- Witness for C5 at the always-failing transport with a speakers cache. -/
theorem output_get_transfer_failure_witness :
    spkState.xonar_udev ≠ none ∧
    xonar_get_status failTransport < 0 ∧
    output_get failTransport spkState = (renderOutput 1, spkState) :=
  ⟨by decide, by decide,
    (output_get_transfer_failure failTransport spkState
      (by decide) (by decide)).1⟩

/-- C6: for every successful connector-status reply, `xonar_get_status`
decodes byte 0 of the buffer as a channel count and returns speakers (1)
exactly when that byte equals 8 and headphones (0) for every other
value; any transport failure (negative return code) is passed through
unchanged as an error, never mapped to the unknown sentinel by this
function. -/
theorem xonar_get_status_decode (t : Transport) (halloc : t.allocOk = true) :
    (0 ≤ (t.rcvResult xonar_status_msg).1 →
      (xonar_get_status t = 1 ↔ (t.rcvResult xonar_status_msg).2.headD 0 = 8) ∧
      (xonar_get_status t = 0 ↔ (t.rcvResult xonar_status_msg).2.headD 0 ≠ 8)) ∧
    ((t.rcvResult xonar_status_msg).1 < 0 →
      xonar_get_status t = (t.rcvResult xonar_status_msg).1) := by
  constructor
  · intro hge
    have hlt : ¬ (t.rcvResult xonar_status_msg).1 < 0 := by omega
    by_cases h8 : (t.rcvResult xonar_status_msg).2.headD 0 = 8 <;>
      simp [xonar_get_status, halloc, hlt, h8]
  · intro hlt
    simp [xonar_get_status, halloc, hlt]

/-- Witness for C6 at the transport replying channel count 8. -/
theorem xonar_get_status_decode_witness :
    okTransport.allocOk = true ∧
    0 ≤ (okTransport.rcvResult xonar_status_msg).1 ∧
    xonar_get_status okTransport = 1 :=
  ⟨by decide, by decide,
    ((xonar_get_status_decode okTransport (by decide)).1
      (by decide)).1.mpr (by decide)⟩

/-- C7: `xonar_switch` builds exactly the 2-byte payload `[0x01, 0x03]`
for speakers and `[0x02, 0x03]` for headphones and issues a
host-to-device transfer (direction bit clear) with request code 0x01,
control selector 0x08 in the high byte of wValue, entity 7 in the high
byte of wIndex, payload length 2 and a 1000 ms timeout. -/
theorem xonar_switch_request (t : Transport) (sp : Int)
    (halloc : t.allocOk = true) :
    xonar_switch t sp = t.sndResult (xonar_switch_msg sp) ∧
    (xonar_switch_msg 1).data = [0x01, 0x03] ∧
    (xonar_switch_msg 0).data = [0x02, 0x03] ∧
    (xonar_switch_msg sp).bRequest = 0x01 ∧
    (xonar_switch_msg sp).wValue = 0x08 <<< 8 ∧
    (xonar_switch_msg sp).wIndex = 7 <<< 8 ∧
    (xonar_switch_msg sp).len = 2 ∧
    (xonar_switch_msg sp).timeout = 1000 ∧
    (xonar_switch_msg sp).bRequestType &&& USB_DIR_IN = 0 := by
  refine ⟨?_, by decide, by decide, rfl, rfl, rfl, rfl, rfl,
    by simp only [xonar_switch_msg]; decide⟩
  simp [xonar_switch, halloc]

/-- Witness for C7 at the always-succeeding transport and speakers. -/
theorem xonar_switch_request_witness :
    okTransport.allocOk = true ∧
    xonar_switch okTransport 1 = okTransport.sndResult (xonar_switch_msg 1) :=
  ⟨by decide, (xonar_switch_request okTransport 1 (by decide)).1⟩

/-- C8: whenever no device handle exists, `output_get` renders
"disconnected" and `output_set` returns `-ENODEV` for every input token;
neither operation touches the state, and neither consults the transport
(the result is the same for every transport), i.e. no transfer is
attempted. -/
theorem no_device_behavior (t t2 : Transport) (v : String) (s : XonarState)
    (hno : s.xonar_udev = none) :
    output_get t s = ("disconnected\n", s) ∧
    output_set t v s = (-ENODEV, s) ∧
    output_get t2 s = output_get t s ∧
    output_set t2 v s = output_set t v s := by
  simp [output_get, output_set, hno]

/-- Witness for C8 at the initial state. -/
theorem no_device_behavior_witness :
    initialState.xonar_udev = none ∧
    output_get failTransport initialState = ("disconnected\n", initialState) ∧
    output_set failTransport "speakers" initialState =
      (-ENODEV, initialState) := by
  refine ⟨by decide, ?_, ?_⟩
  · exact (no_device_behavior failTransport okTransport "speakers"
      initialState (by decide)).1
  · exact (no_device_behavior failTransport okTransport "speakers"
      initialState (by decide)).2.1

/-- C1 counterexample: the token "SPEAKERS" equals "speakers" under
case-insensitive comparison, yet with a device present and a healthy
transport `output_set` rejects it with `-EINVAL` instead of accepting
it: the comparison the code performs (`sysfs_streq`) is case-sensitive. -/
theorem output_set_uppercase_rejected :
    "SPEAKERS".data.map Char.toLower = "speakers".data ∧
    devState.xonar_udev ≠ none ∧
    output_set okTransport "SPEAKERS" devState = (-EINVAL, devState) := by
  refine ⟨by decide, by decide, by decide⟩

/-- C1 amended: with a device present, `output_set` accepts exactly the
tokens that match "speakers"/"1" (mapped to the speakers selection) or
"headphones"/"0" (mapped to headphones) under `sysfs_streq`, i.e.
case-sensitive equality tolerating one trailing newline; every other
token is answered with `-EINVAL`, the state unchanged and no transfer
issued (the result is independent of the transport). -/
theorem output_set_token_matching (t t2 : Transport) (v : String)
    (s : XonarState) (hdev : s.xonar_udev ≠ none) :
    ((sysfs_streq v "speakers" = false ∧ sysfs_streq v "1" = false ∧
      sysfs_streq v "headphones" = false ∧ sysfs_streq v "0" = false) →
        output_set t v s = (-EINVAL, s) ∧ output_set t2 v s = (-EINVAL, s)) ∧
    ((sysfs_streq v "speakers" = true ∨ sysfs_streq v "1" = true) →
        output_set t v s = output_set_locked t 1 s) ∧
    ((sysfs_streq v "speakers" = false ∧ sysfs_streq v "1" = false) →
     (sysfs_streq v "headphones" = true ∨ sysfs_streq v "0" = true) →
        output_set t v s = output_set_locked t 0 s) := by
  refine ⟨?_, ?_, ?_⟩
  · rintro ⟨h1, h2, h3, h4⟩
    constructor <;> simp [output_set, tokenToSpeakers, hdev, h1, h2, h3, h4]
  · intro h
    have htok : tokenToSpeakers v = some 1 := by
      rcases h with h | h <;> simp [tokenToSpeakers, h]
    simp [output_set, hdev, htok]
  · rintro ⟨h1, h2⟩ h
    have htok : tokenToSpeakers v = some 0 := by
      rcases h with h | h <;> simp [tokenToSpeakers, h1, h2, h]
    simp [output_set, hdev, htok]

/-- Witness for the amended C1 at the invalid token "stereo". -/
theorem output_set_token_matching_witness :
    devState.xonar_udev ≠ none ∧
    output_set okTransport "stereo" devState = (-EINVAL, devState) :=
  ⟨by decide,
    ((output_set_token_matching okTransport failTransport "stereo" devState
      (by decide)).1 ⟨by decide, by decide, by decide, by decide⟩).1⟩

/-- C2 counterexample: when discovery finds no matching device,
`xonar_ae_init` returns `-ENODEV`, a nonzero error: the startup routine
does fail (the module load is refused), contradicting the claim that it
leaves the system loaded. -/
theorem xonar_ae_init_no_device_errors :
    find_xonar [] = none ∧
    (xonar_ae_init okTransport []).1 = -ENODEV ∧
    (-ENODEV : Int) ≠ 0 := by decide

/-- C2 amended: when discovery finds no matching device, `xonar_ae_init`
fails with `-ENODEV` and leaves the device-absent initial state; in that
device-absent state every `output_set` signals `-ENODEV` and every
`output_get` renders "disconnected". -/
theorem xonar_ae_init_device_absent (t : Transport)
    (devs : List UsbDeviceDesc) (h : ∀ d ∈ devs, match_xonar d = false) :
    xonar_ae_init t devs = (-ENODEV, initialState) ∧
    (∀ t2 v, output_set t2 v initialState = (-ENODEV, initialState)) ∧
    (∀ t2, output_get t2 initialState = ("disconnected\n", initialState)) := by
  have hf : find_xonar devs = none := by
    rw [find_xonar, List.find?_eq_none]
    intro d hd
    simp [h d hd]
  refine ⟨by simp [xonar_ae_init, hf], ?_, ?_⟩
  · intro t2 v
    simp [output_set, initialState]
  · intro t2
    simp [output_get, initialState]

/-- Witness for the amended C2 at the empty device list. -/
theorem xonar_ae_init_device_absent_witness :
    xonar_ae_init failTransport [] = (-ENODEV, initialState) :=
  (xonar_ae_init_device_absent failTransport [] (by simp)).1

/-- C3 counterexample: starting from a cache remembering speakers (1), a
failing transfer in `output_set` returns an error yet leaves the cache
at 1, not at the unknown sentinel -1: `Unknown` is not the fallback
after a failed transfer in the set path. -/
theorem failed_set_keeps_old_cache :
    (output_set failTransport "headphones" spkState).1 < 0 ∧
    (output_set failTransport "headphones" spkState).2.current_output = 1 ∧
    ¬ (output_set failTransport "headphones" spkState).2.current_output
      = -1 := by
  decide

/-- C3 amended: the cached output is -1 (unknown) initially and after a
failed status query during startup with the device present; in the set
and get paths a failed call leaves the cache exactly as it was (it does
not fall back to unknown). -/
theorem unknown_initial_and_fallback (t : Transport)
    (devs : List UsbDeviceDesc) (d : UsbDeviceDesc)
    (hfound : find_xonar devs = some d) (hfail : xonar_get_status t < 0) :
    initialState.current_output = -1 ∧
    (xonar_ae_init t devs).2.current_output = -1 ∧
    (∀ t2 v s, (output_set t2 v s).1 < 0 →
        (output_set t2 v s).2.current_output = s.current_output) ∧
    (∀ t2 s, xonar_get_status t2 < 0 →
        (output_get t2 s).2.current_output = s.current_output) := by
  have h1 : ¬ (0 ≤ xonar_get_status t) := by omega
  refine ⟨rfl, ?_, ?_, ?_⟩
  · simp [xonar_ae_init, hfound, h1]
  · intro t2 v s hret
    by_cases hd : s.xonar_udev = none
    · simp [output_set, hd]
    · simp only [output_set, if_neg hd] at hret ⊢
      cases htok : tokenToSpeakers v with
      | none => simp [htok]
      | some sp =>
          simp only [htok, output_set_locked] at hret ⊢
          by_cases hr : xonar_switch t2 sp < 0
          · have hnl : ¬ (0 ≤ xonar_switch t2 sp) := by omega
            simp [hnl]
          · simp [hr] at hret
  · intro t2 s hf2
    have h2 : ¬ (0 ≤ xonar_get_status t2) := by omega
    by_cases hd : s.xonar_udev = none
    · simp [output_get, hd]
    · simp [output_get, hd, h2]

/-- Witness for the amended C3: device present, failing transport. -/
theorem unknown_initial_and_fallback_witness :
    find_xonar [xonarDevice] = some xonarDevice ∧
    xonar_get_status failTransport < 0 ∧
    (xonar_ae_init failTransport [xonarDevice]).2.current_output = -1 :=
  ⟨by decide, by decide,
    (unknown_initial_and_fallback failTransport [xonarDevice] xonarDevice
      (by decide) (by decide)).2.1⟩

/-- C9: for every valid write token, against a transport that always
succeeds and whose status reply echoes the last written selection
(channel count 8 after a speakers write, 2 after a headphones write),
`output_set` of that token succeeds and an immediately following
`output_get` renders the canonical string of the written selection:
"speakers" for tokens matching "speakers"/"1" (`sp = 1`) and
"headphones" for tokens matching "headphones"/"0" (`sp = 0`). -/
theorem write_read_roundtrip (t : Transport) (v : String) (sp : Int)
    (s : XonarState) (hdev : s.xonar_udev ≠ none)
    (htok : tokenToSpeakers v = some sp)
    (halloc : t.allocOk = true)
    (hsnd : 0 ≤ t.sndResult (xonar_switch_msg sp))
    (hrcv : 0 ≤ (t.rcvResult xonar_status_msg).1)
    (hecho : (t.rcvResult xonar_status_msg).2.headD 0 =
      if sp = 1 then 8 else 2) :
    (output_set t v s).1 = 0 ∧
    (output_get t (output_set t v s).2).1 =
      if sp = 1 then "speakers\n" else "headphones\n" := by
  have hsw : xonar_switch t sp = t.sndResult (xonar_switch_msg sp) := by
    simp [xonar_switch, halloc]
  have hswge : 0 ≤ xonar_switch t sp := by rw [hsw]; exact hsnd
  have hswnlt : ¬ xonar_switch t sp < 0 := by omega
  have hset : output_set t v s = (0, { s with current_output := sp }) := by
    simp [output_set, if_neg hdev, htok, output_set_locked, hswge, hswnlt]
  have hrnlt : ¬ (t.rcvResult xonar_status_msg).1 < 0 := by omega
  rcases tokenToSpeakers_cases v sp htok with hsp | hsp <;> subst hsp
  · have hst : xonar_get_status t = 1 := by
      rw [xonar_get_status_eq t halloc hrnlt, hecho]
      norm_num
    rw [hset]
    refine ⟨rfl, ?_⟩
    simp [output_get, hdev, hst, renderOutput]
  · have hst : xonar_get_status t = 0 := by
      rw [xonar_get_status_eq t halloc hrnlt, hecho]
      norm_num
    rw [hset]
    refine ⟨rfl, ?_⟩
    simp [output_get, hdev, hst, renderOutput]

/-- Witness for C9: token "speakers" against the echoing transport. -/
theorem write_read_roundtrip_witness :
    tokenToSpeakers "speakers" = some 1 ∧
    (output_set okTransport "speakers" devState).1 = 0 ∧
    (output_get okTransport
      (output_set okTransport "speakers" devState).2).1 = "speakers\n" := by
  have h := write_read_roundtrip okTransport "speakers" 1 devState
    (by decide) (by decide) (by decide) (by decide) (by decide) (by decide)
  exact ⟨by decide, h.1, by simpa using h.2⟩

/-- C10: the cached output is always one of exactly three values (-1
unknown, 0 headphones, 1 speakers): initially, and it is preserved by
`output_set`, `output_get` and established by `xonar_ae_init`; and
`output_get` always renders exactly one of the four literal strings. -/
theorem current_output_invariant (t : Transport) (v : String)
    (devs : List UsbDeviceDesc) (s : XonarState) (hs : curOK s) :
    curOK initialState ∧
    curOK (output_set t v s).2 ∧
    curOK (output_get t s).2 ∧
    curOK (xonar_ae_init t devs).2 ∧
    ((output_get t s).1 = "speakers\n" ∨ (output_get t s).1 = "headphones\n" ∨
      (output_get t s).1 = "unknown\n" ∨
      (output_get t s).1 = "disconnected\n") := by
  refine ⟨Or.inl rfl, ?_, ?_, ?_, ?_⟩
  · by_cases hd : s.xonar_udev = none
    · simpa [output_set, hd] using hs
    · simp only [output_set, if_neg hd]
      cases htok : tokenToSpeakers v with
      | none => simpa using hs
      | some sp =>
          simp only [output_set_locked]
          by_cases hr : 0 ≤ xonar_switch t sp
          · rcases tokenToSpeakers_cases v sp htok with h | h <;>
              subst h <;> simp [curOK, hr]
          · simpa [hr] using hs
  · by_cases hd : s.xonar_udev = none
    · simpa [output_get, hd] using hs
    · simp only [output_get, if_neg hd]
      rcases xonar_get_status_cases t with h | h | h
      · have hn : ¬ (0 ≤ xonar_get_status t) := by omega
        simpa [hn] using hs
      · simp [curOK, h]
      · simp [curOK, h]
  · cases hf : find_xonar devs with
    | none =>
        simp only [xonar_ae_init, hf]
        exact Or.inl rfl
    | some d =>
        simp only [xonar_ae_init, hf]
        rcases xonar_get_status_cases t with h | h | h
        · have hn : ¬ (0 ≤ xonar_get_status t) := by omega
          simp [curOK, hn]
        · simp [curOK, h]
        · simp [curOK, h]
  · by_cases hd : s.xonar_udev = none
    · simp [output_get, hd]
    · simp only [output_get, if_neg hd]
      by_cases hg : 0 ≤ xonar_get_status t
      · rcases renderOutput_mem (xonar_get_status t) with h | h | h <;>
          simp [hg, h]
      · rcases renderOutput_mem s.current_output with h | h | h <;>
          simp [hg, h]

/-- Witness for C10 at the initial state and failing transport. -/
theorem current_output_invariant_witness :
    curOK initialState ∧ curOK (output_get failTransport initialState).2 :=
  ⟨Or.inl rfl,
    (current_output_invariant failTransport "speakers" [] initialState
      (Or.inl rfl)).2.2.1⟩

end XonarAE
